import Mathlib

/-!
Shallow embedding of the TrustyClaw escrow programs.

Main variant: `src/programs/escrow/src/lib.rs` (the dispute-supporting
Anchor program, `pub mod escrow`).  Its on-chain entry points are embedded
as pure functions over an explicit `Escrow` record:

* `Pubkey` values are modelled as `Nat` (with `0` for `Pubkey::default()`).
* `i64` timestamps and durations are modelled as `Int`; `u64` amounts as
  `Nat` (no operation in the embedded code performs arithmetic on them, so
  overflow wrapping never arises in the main variant).
* Each Anchor instruction is compiled to a function
  `Escrow → ⟨caller/account arguments⟩ → Except TxError (Escrow × TokenFlow)`.
  The checks appear in the order Anchor evaluates them: account-struct
  constraints (`has_one = …`) first, then the `#[access_control(...)]`
  expression, then the handler body.
* The SPL-token CPI (`token::transfer`) is the external Token Ledger
  Service; its outcome is an explicit `Bool` argument (`tOk`).  A Solana
  transaction is atomic: when any step returns an error the whole
  transaction aborts and no account write is committed.  The embedding
  reflects that by returning `.error` with no record (the persisted state
  is the pre-call record, see `persisted`), and on success returning the
  fully updated record together with the token movement (`TokenFlow`)
  the instruction performed.
* Account plumbing that cannot affect the record or the caller checks
  (PDA seeds/bump, associated-token-account derivation, rent payer,
  program accounts) is outside the record/ledger boundary and is not
  represented; the `has_one` constraints, which do bind instruction
  accounts to record fields (`has_one = token_mint` on `Fund`,
  `has_one = renter` on `Release`), are represented and fail with
  `TxError.constraintHasOne` (Anchor's `ConstraintHasOne` error).

Second variant: `src/src/trustyclaw/contracts/escrow/programs/escrow.rs`
(the simple four-state program), embedded in namespace `Simple` as far as
the claims need it (`check_timeout` and its account type).
-/

/-- States of the dispute-supporting escrow (`enum EscrowState` in
`src/programs/escrow/src/lib.rs`). -/
inductive EscrowState where
  | Created
  | Funded
  | Released
  | Refunded
  | Disputed
deriving DecidableEq, Repr

/-- Error codes of the dispute-supporting escrow (`enum EscrowError`). -/
inductive EscrowError where
  | InvalidState
  | TimeoutNotElapsed
  | Unauthorized
  | InsufficientFunds
  | InvalidTokenAccount
deriving DecidableEq, Repr

/-- A transaction-level error: either one of the program's own
`EscrowError` codes raised by `require!` / `#[access_control]`, or an
Anchor account-constraint violation (`has_one`), or a failure propagated
from the SPL-token transfer CPI. -/
inductive TxError where
  | escrow (e : EscrowError)
  | constraintHasOne
  | transferFailed
deriving DecidableEq, Repr

/-- The token movement a successful instruction performs via the Token
Ledger Service: nothing, a deposit renter → custody, or a withdrawal
custody → provider / custody → renter. -/
inductive TokenFlow where
  | none
  | intoCustody (amt : Nat)
  | outToProvider (amt : Nat)
  | outToRenter (amt : Nat)
deriving DecidableEq, Repr

/-- The persistent escrow record (`#[account] pub struct Escrow`). -/
structure Escrow where
  provider : Nat
  renter : Nat
  token_mint : Nat
  provider_token_account : Nat
  skill_name : String
  duration_seconds : Int
  price_usdc : Nat
  metadata_uri : String
  amount : Nat
  state : EscrowState
  created_at : Int
  funded_at : Option Int
  completed_at : Option Int
  disputed_at : Option Int
  dispute_reason : Option String
deriving DecidableEq, Repr

/-- The record written by a successful `initialize` (body of
`pub fn initialize`): state `Created`, `renter = Pubkey::default()`,
`amount = 0`, only `created_at` set. -/
def initRecord (provider token_mint provider_token_account : Nat)
    (skill_name : String) (duration_seconds : Int) (price_usdc : Nat)
    (metadata_uri : String) (now : Int) : Escrow :=
  { provider := provider
    renter := 0
    token_mint := token_mint
    provider_token_account := provider_token_account
    skill_name := skill_name
    duration_seconds := duration_seconds
    price_usdc := price_usdc
    metadata_uri := metadata_uri
    amount := 0
    state := .Created
    created_at := now
    funded_at := Option.none
    completed_at := Option.none
    disputed_at := Option.none
    dispute_reason := Option.none }

/-- `pub fn initialize`, guarded by
`#[access_control(valid_escrow_account(&ctx))]`.  `valid_escrow_account`
requires `provider_token_account.amount >= provider_token_account.amount`
(the source compares the field with itself), raising `InsufficientFunds`
otherwise; the handler performs no validation of `skill_name`,
`duration_seconds` or `metadata_uri`.  `pta_amount` is the balance of the
provider token account used by that check. -/
def Escrow.initialize (provider token_mint provider_token_account pta_amount : Nat)
    (skill_name : String) (duration_seconds : Int) (price_usdc : Nat)
    (metadata_uri : String) (now : Int) : Except TxError Escrow :=
  if pta_amount ≥ pta_amount then
    .ok (initRecord provider token_mint provider_token_account skill_name
      duration_seconds price_usdc metadata_uri now)
  else
    .error (.escrow .InsufficientFunds)

/-- `pub fn fund`.  `Fund` accounts: `renter` is any signer (no `has_one`
binding it to the record), `has_one = token_mint`; then
`#[access_control(state_is(&ctx, EscrowState::Created))]`; the body sets
`renter`, `amount`, `state`, `funded_at` and transfers `amount` renter →
custody.  There is no check that `amount > 0`. -/
def Escrow.fund (e : Escrow) (renter token_mint : Nat) (amount : Nat)
    (now : Int) (tOk : Bool) : Except TxError (Escrow × TokenFlow) :=
  if token_mint ≠ e.token_mint then .error .constraintHasOne
  else if e.state ≠ .Created then .error (.escrow .InvalidState)
  else if tOk then
    .ok ({ e with
            renter := renter
            amount := amount
            state := .Funded
            funded_at := some now }, .intoCustody amount)
  else .error .transferFailed

/-- `pub fn complete`.  `Complete` accounts: `authority` is any signer;
`#[access_control(state_is(&ctx, EscrowState::Funded))]`; the body is a
marker that writes nothing and moves no tokens. -/
def Escrow.complete (e : Escrow) (authority : Nat) :
    Except TxError (Escrow × TokenFlow) :=
  if e.state ≠ .Funded then .error (.escrow .InvalidState)
  else .ok (e, .none)

/-- `pub fn release`.  `Release` accounts: the signer is bound to the
record by `has_one = renter` (checked by Anchor before the
access-control); then `state_is(Funded)`; the body sets `state` and
`completed_at` and transfers `escrow.amount` custody → provider. -/
def Escrow.release (e : Escrow) (renter : Nat) (now : Int) (tOk : Bool) :
    Except TxError (Escrow × TokenFlow) :=
  if renter ≠ e.renter then .error .constraintHasOne
  else if e.state ≠ .Funded then .error (.escrow .InvalidState)
  else if tOk then
    .ok ({ e with state := .Released, completed_at := some now },
      .outToProvider e.amount)
  else .error .transferFailed

/-- `pub fn refund`.  `Refund` accounts: the `provider` signer is NOT
bound to the record (no `has_one = provider`); then `state_is(Funded)`;
the body sets `state := Refunded` (no timestamp) and transfers
`escrow.amount` custody → renter. -/
def Escrow.refund (e : Escrow) (provider : Nat) (tOk : Bool) :
    Except TxError (Escrow × TokenFlow) :=
  if e.state ≠ .Funded then .error (.escrow .InvalidState)
  else if tOk then
    .ok ({ e with state := .Refunded }, .outToRenter e.amount)
  else .error .transferFailed

/-- `pub fn dispute`.  `Dispute` accounts: `authority` is any signer (the
source comment says it can be renter or provider but no constraint checks
that); then `state_is(Funded)`; the body stores the reason verbatim (no
emptiness or length validation) and sets `disputed_at`.  No tokens move. -/
def Escrow.dispute (e : Escrow) (authority : Nat) (reason : String)
    (now : Int) : Except TxError (Escrow × TokenFlow) :=
  if e.state ≠ .Funded then .error (.escrow .InvalidState)
  else
    .ok ({ e with
            state := .Disputed
            dispute_reason := some reason
            disputed_at := some now }, .none)

/-- `pub fn resolve_dispute_release`.  `ResolveDispute` accounts:
`authority` is any signer (no arbiter check); then `state_is(Disputed)`;
the body sets `state := Released`, `completed_at`, and transfers
`escrow.amount` custody → provider. -/
def Escrow.resolve_dispute_release (e : Escrow) (authority : Nat)
    (now : Int) (tOk : Bool) : Except TxError (Escrow × TokenFlow) :=
  if e.state ≠ .Disputed then .error (.escrow .InvalidState)
  else if tOk then
    .ok ({ e with state := .Released, completed_at := some now },
      .outToProvider e.amount)
  else .error .transferFailed

/-- `pub fn resolve_dispute_refund`.  Same accounts as
`resolve_dispute_release`; `state_is(Disputed)`; the body sets
`state := Refunded` (no timestamp) and transfers `escrow.amount`
custody → renter. -/
def Escrow.resolve_dispute_refund (e : Escrow) (authority : Nat)
    (tOk : Bool) : Except TxError (Escrow × TokenFlow) :=
  if e.state ≠ .Disputed then .error (.escrow .InvalidState)
  else if tOk then
    .ok ({ e with state := .Refunded }, .outToRenter e.amount)
  else .error .transferFailed

/-- Whether an instruction result is a success. -/
def isOk {ε α : Type} : Except ε α → Bool
  | .ok _ => true
  | .error _ => false

/-- The record that is on chain after the transaction: the updated record
on success, the untouched pre-call record when the transaction aborted. -/
def persisted (e : Escrow) : Except TxError (Escrow × TokenFlow) → Escrow
  | .ok (e', _) => e'
  | .error _ => e

/-- The token movement a result performed (none when the transaction
aborted, since the ledger write is rolled back with everything else). -/
def flowOf : Except TxError (Escrow × TokenFlow) → TokenFlow
  | .ok (_, f) => f
  | .error _ => .none

/-- One invocation of a mutating instruction of the program, with its
caller, arguments, clock reading and ledger outcome. -/
inductive Op where
  | fund (renter token_mint : Nat) (amount : Nat) (now : Int) (tOk : Bool)
  | complete (authority : Nat)
  | release (renter : Nat) (now : Int) (tOk : Bool)
  | refund (provider : Nat) (tOk : Bool)
  | dispute (authority : Nat) (reason : String) (now : Int)
  | resolveDisputeRelease (authority : Nat) (now : Int) (tOk : Bool)
  | resolveDisputeRefund (authority : Nat) (tOk : Bool)
deriving DecidableEq, Repr

/-- Dispatch one instruction against a record. -/
def step (e : Escrow) : Op → Except TxError (Escrow × TokenFlow)
  | .fund r tm a n tOk => e.fund r tm a n tOk
  | .complete c => e.complete c
  | .release r n tOk => e.release r n tOk
  | .refund p tOk => e.refund p tOk
  | .dispute c reason n => e.dispute c reason n
  | .resolveDisputeRelease c n tOk => e.resolve_dispute_release c n tOk
  | .resolveDisputeRefund c tOk => e.resolve_dispute_refund c tOk

/-- The record persisted after one instruction (transaction atomicity:
a failed instruction leaves the record untouched). -/
def applyOp (e : Escrow) (op : Op) : Escrow :=
  persisted e (step e op)

/-- Run a sequence of instructions against a record. -/
def run (e : Escrow) : List Op → Escrow
  | [] => e
  | op :: ops => run (applyOp e op) ops

/-- The amount a token movement withdrew from the custody account, if
it was an outbound movement. -/
def outAmount : TokenFlow → Option Nat
  | .outToProvider a => some a
  | .outToRenter a => some a
  | _ => Option.none

/-- All custody withdrawals performed along a run, in order. -/
def outflows (e : Escrow) : List Op → List Nat
  | [] => []
  | op :: ops =>
    match outAmount (flowOf (step e op)) with
    | some a => a :: outflows (applyOp e op) ops
    | Option.none => outflows (applyOp e op) ops

/-- Terminal states of the escrow state machine. -/
def EscrowState.isTerminal : EscrowState → Bool
  | .Released => true
  | .Refunded => true
  | _ => false

namespace Simple

/-- Terms of the simple four-state escrow variant
(`struct EscrowTerms` in
`src/src/trustyclaw/contracts/escrow/programs/escrow.rs`). -/
structure EscrowTerms where
  skill_name : String
  duration_seconds : Int
  price_usdc : Nat
  metadata_uri : String
deriving DecidableEq, Repr

/-- States of the simple variant (`enum EscrowState` there). -/
inductive EscrowState where
  | Created
  | Funded
  | Completed
  | Cancelled
deriving DecidableEq, Repr

/-- The simple variant's record (`#[account] pub struct EscrowAccount`). -/
structure EscrowAccount where
  provider : Nat
  renter : Nat
  token_mint : Nat
  provider_token_account : Nat
  escrow_token_account : Nat
  terms : EscrowTerms
  state : EscrowState
  amount : Nat
  created_at : Int
  completed_at : Int
  cancelled_at : Int
deriving DecidableEq, Repr

/-- Error codes of the simple variant (`enum EscrowError` there). -/
inductive EscrowError where
  | InvalidState
  | TimeoutNotElapsed
  | Unauthorized
  | InsufficientFunds
deriving DecidableEq, Repr

/-- `pub fn check_timeout` of the simple variant.  It is guarded by
`#[access_control(state_is(&ctx, EscrowState::Funded))]`, so a record
whose state is not `Funded` is rejected with `InvalidState` before the
body runs.  The body reads the clock and answers
`now >= escrow.created_at + escrow.terms.duration_seconds`.  The
`CheckTimeout` account context takes the record without `mut`, and the
function writes no field — here that is structural: the function returns
only the `Bool` and no record.  The `i64` addition is modelled as exact
`Int` addition; theorems about it carry an explicit in-range hypothesis
so that they are insensitive to the overflow convention. -/
def check_timeout (e : EscrowAccount) (now : Int) :
    Except EscrowError Bool :=
  if e.state ≠ .Funded then .error .InvalidState
  else .ok (decide (e.created_at + e.terms.duration_seconds ≤ now))

end Simple

/-! Helper lemmas about the dispute-supporting escrow state machine. -/

lemma step_not_ok_of_terminal (e : Escrow) (op : Op)
    (h : e.state = .Released ∨ e.state = .Refunded) :
    isOk (step e op) = false := by
  have h1 : e.state ≠ .Created := by rcases h with h | h <;> rw [h] <;> decide
  have h2 : e.state ≠ .Funded := by rcases h with h | h <;> rw [h] <;> decide
  have h3 : e.state ≠ .Disputed := by rcases h with h | h <;> rw [h] <;> decide
  cases op <;>
    simp only [step, Escrow.fund, Escrow.complete, Escrow.release,
      Escrow.refund, Escrow.dispute, Escrow.resolve_dispute_release,
      Escrow.resolve_dispute_refund] <;>
    split_ifs <;> simp_all [isOk]

lemma step_ok_src_not_terminal (e : Escrow) (op : Op) (e' : Escrow)
    (f : TokenFlow) (h : step e op = .ok (e', f)) :
    e.state ≠ .Released ∧ e.state ≠ .Refunded := by
  constructor <;> intro hs <;>
    [have hno := step_not_ok_of_terminal e op (Or.inl hs);
     have hno := step_not_ok_of_terminal e op (Or.inr hs)] <;>
    rw [h] at hno <;> simp [isOk] at hno

lemma step_ok_state_ne_created (e : Escrow) (op : Op) (e' : Escrow)
    (f : TokenFlow) (h : step e op = .ok (e', f)) : e'.state ≠ .Created := by
  cases op <;>
    simp only [step, Escrow.fund, Escrow.complete, Escrow.release,
      Escrow.refund, Escrow.dispute, Escrow.resolve_dispute_release,
      Escrow.resolve_dispute_refund] at h <;>
    split_ifs at h <;> simp_all <;>
    obtain ⟨he, hf⟩ := h <;> subst he <;> simp_all

lemma step_ok_amount (e : Escrow) (op : Op) (e' : Escrow) (f : TokenFlow)
    (h : step e op = .ok (e', f)) (hne : e.state ≠ .Created) :
    e'.amount = e.amount := by
  cases op <;>
    simp only [step, Escrow.fund, Escrow.complete, Escrow.release,
      Escrow.refund, Escrow.dispute, Escrow.resolve_dispute_release,
      Escrow.resolve_dispute_refund] at h <;>
    split_ifs at h <;> simp_all <;>
    obtain ⟨he, hf⟩ := h <;> subst he <;> simp_all

lemma step_ok_outflow (e : Escrow) (op : Op) (e' : Escrow) (f : TokenFlow)
    (h : step e op = .ok (e', f)) (a : Nat) (ha : outAmount f = some a) :
    a = e.amount ∧ e'.amount = e.amount ∧
      (e'.state = .Released ∨ e'.state = .Refunded) := by
  cases op <;>
    simp only [step, Escrow.fund, Escrow.complete, Escrow.release,
      Escrow.refund, Escrow.dispute, Escrow.resolve_dispute_release,
      Escrow.resolve_dispute_refund] at h <;>
    split_ifs at h <;> simp_all <;>
    obtain ⟨he, hf⟩ := h <;> subst he <;> subst hf <;>
    simp_all [outAmount]

lemma step_ok_completed (e : Escrow) (op : Op) (e' : Escrow) (f : TokenFlow)
    (h : step e op = .ok (e', f)) :
    e'.state = .Released ∨
      (e'.completed_at = e.completed_at ∧ e'.state ≠ .Released) := by
  cases op <;>
    simp only [step, Escrow.fund, Escrow.complete, Escrow.release,
      Escrow.refund, Escrow.dispute, Escrow.resolve_dispute_release,
      Escrow.resolve_dispute_refund] at h <;>
    split_ifs at h <;> simp_all <;>
    obtain ⟨he, hf⟩ := h <;> subst he <;> simp_all

lemma terminal_step_error_kinds (e : Escrow) (op : Op) (err : TxError)
    (hterm : e.state = .Released ∨ e.state = .Refunded)
    (h : step e op = .error err) :
    err = .escrow .InvalidState ∨
      (err = .constraintHasOne ∧
        ((∃ r n t, op = .release r n t ∧ r ≠ e.renter) ∨
         (∃ r tm a n t, op = .fund r tm a n t ∧ tm ≠ e.token_mint))) := by
  have h1 : e.state ≠ .Created := by rcases hterm with h' | h' <;> rw [h'] <;> decide
  have h2 : e.state ≠ .Funded := by rcases hterm with h' | h' <;> rw [h'] <;> decide
  have h3 : e.state ≠ .Disputed := by rcases hterm with h' | h' <;> rw [h'] <;> decide
  cases op <;>
    simp only [step, Escrow.fund, Escrow.complete, Escrow.release,
      Escrow.refund, Escrow.dispute, Escrow.resolve_dispute_release,
      Escrow.resolve_dispute_refund] at h <;>
    split_ifs at h <;> simp_all <;> aesop

lemma applyOp_eq_of_not_ok (e : Escrow) (op : Op)
    (h : isOk (step e op) = false) : applyOp e op = e := by
  unfold applyOp persisted
  cases hs : step e op with
  | ok v => rw [hs] at h; simp [isOk] at h
  | error err => rfl

lemma flowOf_of_not_ok (e : Escrow) (op : Op)
    (h : isOk (step e op) = false) : flowOf (step e op) = .none := by
  cases hs : step e op with
  | ok v => rw [hs] at h; simp [isOk] at h
  | error err => simp [flowOf]

lemma run_eq_of_terminal (e : Escrow) (ops : List Op)
    (h : e.state = .Released ∨ e.state = .Refunded) : run e ops = e := by
  induction ops with
  | nil => rfl
  | cons op ops ih =>
    have := applyOp_eq_of_not_ok e op (step_not_ok_of_terminal e op h)
    simp [run, this, ih]

lemma outflows_nil_of_terminal (e : Escrow) (ops : List Op)
    (h : e.state = .Released ∨ e.state = .Refunded) : outflows e ops = [] := by
  induction ops with
  | nil => rfl
  | cons op ops ih =>
    have hno := step_not_ok_of_terminal e op h
    have hf := flowOf_of_not_ok e op hno
    have ha := applyOp_eq_of_not_ok e op hno
    simp [outflows, hf, outAmount, ha, ih]

lemma outflows_spec (e : Escrow) (ops : List Op) :
    (outflows e ops).length ≤ 1 ∧
      ∀ a ∈ outflows e ops, a = (run e ops).amount := by
  induction ops generalizing e with
  | nil => simp [outflows, run]
  | cons op ops ih =>
    cases hs : step e op with
    | error err =>
      have hno : isOk (step e op) = false := by rw [hs]; rfl
      have h1 := applyOp_eq_of_not_ok e op hno
      have h2 := flowOf_of_not_ok e op hno
      simp only [outflows, run, h1, h2, outAmount]
      exact ih e
    | ok v =>
      obtain ⟨e', f⟩ := v
      have happ : applyOp e op = e' := by simp [applyOp, persisted, hs]
      have hflow : flowOf (step e op) = f := by simp [flowOf, hs]
      cases hf : outAmount f with
      | none =>
        simp only [outflows, run, happ, hflow, hf]
        exact ih e'
      | some a =>
        obtain ⟨ha1, ha2, hterm⟩ := step_ok_outflow e op e' f hs a hf
        have hrun : run e' ops = e' := run_eq_of_terminal e' ops hterm
        have hout : outflows e' ops = [] := outflows_nil_of_terminal e' ops hterm
        simp only [outflows, run, happ, hflow, hf, hrun, hout]
        refine ⟨by simp, ?_⟩
        intro b hb
        simp at hb
        rw [hb, ha1, ← ha2]

lemma outflows_sum_le (e : Escrow) (ops : List Op) :
    (outflows e ops).sum ≤ (run e ops).amount := by
  obtain ⟨hlen, hmem⟩ := outflows_spec e ops
  cases hout : outflows e ops with
  | nil => simp
  | cons a t =>
    rw [hout] at hlen hmem
    have ht : t = [] := by
      cases t with
      | nil => rfl
      | cons b u => simp at hlen
    subst ht
    have := hmem a (by simp)
    simp [this]

lemma run_amount_of_ne_created (e : Escrow) (ops : List Op)
    (h : e.state ≠ .Created) :
    (run e ops).amount = e.amount ∧ (run e ops).state ≠ .Created := by
  induction ops generalizing e with
  | nil => exact ⟨rfl, h⟩
  | cons op ops ih =>
    cases hs : step e op with
    | error err =>
      have hno : isOk (step e op) = false := by rw [hs]; rfl
      have h1 := applyOp_eq_of_not_ok e op hno
      simp only [run, h1]
      exact ih e h
    | ok v =>
      obtain ⟨e', f⟩ := v
      have happ : applyOp e op = e' := by simp [applyOp, persisted, hs]
      have hne' := step_ok_state_ne_created e op e' f hs
      have ham := step_ok_amount e op e' f hs h
      simp only [run, happ]
      obtain ⟨ih1, ih2⟩ := ih e' hne'
      exact ⟨ih1.trans ham, ih2⟩

lemma run_created_amount (e : Escrow) (ops : List Op)
    (h : e.state = .Created → e.amount = 0) :
    (run e ops).state = .Created → (run e ops).amount = 0 := by
  induction ops generalizing e with
  | nil => exact h
  | cons op ops ih =>
    cases hs : step e op with
    | error err =>
      have hno : isOk (step e op) = false := by rw [hs]; rfl
      have h1 := applyOp_eq_of_not_ok e op hno
      simp only [run, h1]
      exact ih e h
    | ok v =>
      obtain ⟨e', f⟩ := v
      have happ : applyOp e op = e' := by simp [applyOp, persisted, hs]
      have hne' := step_ok_state_ne_created e op e' f hs
      simp only [run, happ]
      exact ih e' (fun hc => absurd hc hne')

lemma run_completed_none (e : Escrow) (ops : List Op)
    (h : e.state ≠ .Released → e.completed_at = Option.none) :
    (run e ops).state ≠ .Released →
      (run e ops).completed_at = Option.none := by
  induction ops generalizing e with
  | nil => exact h
  | cons op ops ih =>
    cases hs : step e op with
    | error err =>
      have hno : isOk (step e op) = false := by rw [hs]; rfl
      have h1 := applyOp_eq_of_not_ok e op hno
      simp only [run, h1]
      exact ih e h
    | ok v =>
      obtain ⟨e', f⟩ := v
      have happ : applyOp e op = e' := by simp [applyOp, persisted, hs]
      have hsrc := (step_ok_src_not_terminal e op e' f hs).1
      simp only [run, happ]
      refine ih e' ?_
      intro hne'
      rcases step_ok_completed e op e' f hs with hrel | ⟨hpres, _⟩
      · exact absurd hrel hne'
      · rw [hpres]; exact h hsrc

/-! Concrete fixtures used by counterexamples and witnesses. -/

/-- A freshly initialized record: provider 1, mint 7, duration 3600. -/
def e0c : Escrow := initRecord 1 7 3 "art" 3600 5 "ipfs" 10

/-- `e0c` after being funded by renter 2 with 50 tokens at time 20. -/
def f1 : Escrow :=
  { e0c with renter := 2, amount := 50, state := .Funded, funded_at := some 20 }

/-- `f1` after a dispute was filed at time 30. -/
def d1 : Escrow :=
  { f1 with state := .Disputed, dispute_reason := some "late", disputed_at := some 30 }

/-- `f1` after the renter released it at time 40 (a terminal record). -/
def rel1 : Escrow :=
  { f1 with state := .Released, completed_at := some 40 }

/-- A `Created` record of the simple four-state variant, duration 10. -/
def sc1 : Simple.EscrowAccount :=
  { provider := 1
    renter := 0
    token_mint := 7
    provider_token_account := 3
    escrow_token_account := 4
    terms :=
      { skill_name := "art", duration_seconds := 10, price_usdc := 5,
        metadata_uri := "u" }
    state := .Created
    amount := 0
    created_at := 0
    completed_at := 0
    cancelled_at := 0 }

/-- `sc1` after funding (state `Funded`). -/
def sf1 : Simple.EscrowAccount :=
  { sc1 with renter := 2, amount := 50, state := .Funded }

/-! Claim theorems. -/

/-- Claim C1.  Authorization of the fund-moving operations, evaluated on
the code.  `release` does bind its signer to the record's renter
(`has_one = renter`): a funded record with renter 2 rejects caller 3 with
the account-constraint error and accepts caller 2.  But `refund` has no
caller constraint at all — caller 3, who is neither provider 1 nor
renter 2, successfully refunds — and `resolve_dispute_release` /
`resolve_dispute_refund` accept any signer (caller 99 here), since the
program never checks the caller against any configured arbiter.  This
contradicts the claim that refund succeeds only for the provider and
dispute resolution only for the arbiter. -/
theorem claim_C1_code_eval :
    Escrow.release f1 3 40 true = .error .constraintHasOne
  ∧ Escrow.release f1 2 40 true =
      .ok ({ f1 with state := .Released, completed_at := some 40 },
        .outToProvider 50)
  ∧ (3 ≠ f1.provider ∧ 3 ≠ f1.renter)
  ∧ Escrow.refund f1 3 true = .ok ({ f1 with state := .Refunded }, .outToRenter 50)
  ∧ Escrow.resolve_dispute_release d1 99 50 true =
      .ok ({ d1 with state := .Released, completed_at := some 50 },
        .outToProvider 50)
  ∧ Escrow.resolve_dispute_refund d1 99 true =
      .ok ({ d1 with state := .Refunded }, .outToRenter 50) :=
  ⟨rfl, rfl, ⟨by decide, by decide⟩, rfl, rfl, rfl⟩

/-- Claim C6.  `dispute` performs no authorization and no reason
validation: on a `Funded` record with provider 1 and renter 2, caller 99
(neither party) filing a dispute with the empty reason succeeds, moving
the state to `Disputed` with `dispute_reason = Some("")` — the claim says
this must fail with `Unauthorized` (foreign caller) and `InvalidReason`
(empty reason) with the state remaining `Funded`. -/
theorem claim_C6_dispute_unchecked :
    (99 ≠ f1.provider ∧ 99 ≠ f1.renter ∧ f1.state = .Funded)
  ∧ Escrow.dispute f1 99 "" 25 =
      .ok ({ f1 with
              state := .Disputed
              dispute_reason := some ""
              disputed_at := some 25 }, .none) :=
  ⟨⟨by decide, by decide, rfl⟩, rfl⟩

/-- Claim C7.  `initialize` validates nothing: the constants
`MAX_SKILL_NAME_LEN` and `MAX_METADATA_URI_LEN` are declared in the
source but never used, `EscrowError` has no `InvalidTerms` variant, and
`valid_escrow_account` only compares a balance with itself.  A call with
`duration_seconds = 0` (≤ 0) succeeds and allocates a `Created` record. -/
theorem claim_C7_no_terms_validation :
    Escrow.initialize 1 7 3 100 "art" 0 5 "ipfs" 10 =
      .ok (initRecord 1 7 3 "art" 0 5 "ipfs" 10)
  ∧ (initRecord 1 7 3 "art" 0 5 "ipfs" 10).state = .Created
  ∧ (initRecord 1 7 3 "art" 0 5 "ipfs" 10).duration_seconds ≤ 0 :=
  ⟨rfl, rfl, by decide⟩

/-- Claim C3.  Atomicity: when the ledger transfer fails (`tOk = false`),
`fund`, `release` and `refund` each return an error, and the persisted
record — the one on chain after the aborted transaction — is exactly the
pre-call record, so its `state` and `amount` are unchanged. -/
theorem claim_C3_transfer_atomicity :
    ∀ (e : Escrow) (r tm a p c : Nat) (n : Int),
    (isOk (e.fund r tm a n false) = false ∧
      persisted e (e.fund r tm a n false) = e)
  ∧ (isOk (e.release c n false) = false ∧
      persisted e (e.release c n false) = e)
  ∧ (isOk (e.refund p false) = false ∧
      persisted e (e.refund p false) = e) := by
  refine fun e r tm a p c n => ⟨⟨?_, ?_⟩, ⟨?_, ?_⟩, ⟨?_, ?_⟩⟩ <;>
    simp only [Escrow.fund, Escrow.release, Escrow.refund] <;>
    split_ifs <;> simp_all [isOk, persisted]

/-- Claim C9.  `complete` is a pure marker: it succeeds exactly on
`Funded` records, persists the record unchanged, moves no tokens, and
fails with `InvalidState` in every other state. -/
theorem claim_C9_complete_marker : ∀ (e : Escrow) (c : Nat),
    persisted e (e.complete c) = e
  ∧ flowOf (e.complete c) = .none
  ∧ (e.complete c = .ok (e, .none) ↔ e.state = .Funded)
  ∧ (e.state ≠ .Funded → e.complete c = .error (.escrow .InvalidState)) := by
  intro e c
  by_cases h : e.state = .Funded <;>
    simp [Escrow.complete, h, persisted, flowOf]

/-- Witness for C9 at concrete records: `complete` succeeds on the funded
record `f1` and leaves it untouched, and fails with `InvalidState` on the
merely created record `e0c`. -/
theorem claim_C9_witness :
    Escrow.complete f1 9 = .ok (f1, .none)
  ∧ Escrow.complete e0c 9 = .error (.escrow .InvalidState) :=
  ⟨(claim_C9_complete_marker f1 9).2.2.1.mpr rfl,
   (claim_C9_complete_marker e0c 9).2.2.2 (by decide)⟩

/-- Claim C2, counterexample.  On the already-Released record `rel1`
(renter 2), a `release` attempt by caller 99 does fail and leaves the
record alone, but the error is the account-constraint error (Anchor
checks `has_one = renter` while deserializing the accounts, before the
`state_is` access control runs), not `InvalidState` as the claim states
for every operation on a terminal record. -/
theorem claim_C2_counterexample :
    rel1.state = .Released
  ∧ Escrow.release rel1 99 7 true = .error .constraintHasOne
  ∧ Escrow.release rel1 99 7 true ≠ .error (.escrow .InvalidState) := by
  refine ⟨rfl, rfl, ?_⟩
  intro hcontra
  rw [show Escrow.release rel1 99 7 true = .error .constraintHasOne from rfl]
    at hcontra
  simp at hcontra

/-- Claim C2, amended.  Terminal states are absorbing: on a record in
`Released` or `Refunded`, every operation fails and persists nothing, no
sequence of operations ever changes the record, and no withdrawal (in
particular no second payout) ever happens.  The failure is `InvalidState`
except when the instruction is rejected even earlier by an account
constraint: a `release` whose signer is not the record's renter, or a
`fund` whose token-mint account is not the record's mint. -/
theorem claim_C2_amended : ∀ (e : Escrow) (op : Op) (ops : List Op),
    (e.state = .Released ∨ e.state = .Refunded) →
      isOk (step e op) = false
    ∧ applyOp e op = e
    ∧ run e ops = e
    ∧ outflows e ops = []
    ∧ ∀ err, step e op = .error err →
        err = .escrow .InvalidState ∨
          (err = .constraintHasOne ∧
            ((∃ r n t, op = .release r n t ∧ r ≠ e.renter) ∨
             (∃ r tm a n t, op = .fund r tm a n t ∧ tm ≠ e.token_mint))) := by
  intro e op ops hterm
  have hno := step_not_ok_of_terminal e op hterm
  exact ⟨hno, applyOp_eq_of_not_ok e op hno, run_eq_of_terminal e ops hterm,
    outflows_nil_of_terminal e ops hterm,
    fun err herr => terminal_step_error_kinds e op err hterm herr⟩

/-- Witness for the amended C2 at the concrete Released record `rel1`: a
`refund` attempt is rejected, a subsequent `release` run leaves `rel1`
exactly as it is, and the error produced by the refund attempt satisfies
the stated characterization (it is `InvalidState`). -/
theorem claim_C2_witness :
    isOk (step rel1 (Op.refund 1 true)) = false
  ∧ run rel1 [Op.release 2 5 true] = rel1
  ∧ (TxError.escrow .InvalidState = TxError.escrow .InvalidState ∨
      (TxError.escrow .InvalidState = TxError.constraintHasOne ∧
        ((∃ r n t, Op.refund 1 true = Op.release r n t ∧ r ≠ rel1.renter) ∨
         (∃ r tm a n t, Op.refund 1 true = Op.fund r tm a n t ∧
            tm ≠ rel1.token_mint)))) :=
  ⟨(claim_C2_amended rel1 (Op.refund 1 true) [Op.release 2 5 true]
      (Or.inl rfl)).1,
   (claim_C2_amended rel1 (Op.refund 1 true) [Op.release 2 5 true]
      (Or.inl rfl)).2.2.1,
   (claim_C2_amended rel1 (Op.refund 1 true) [Op.release 2 5 true]
      (Or.inl rfl)).2.2.2.2 (.escrow .InvalidState) rfl⟩

/-- Claim C4, counterexample.  `fund` has no `amount > 0` precondition:
funding the freshly created record `e0c` with amount 0 succeeds and
reaches state `Funded` with `amount = 0`, a reachable record violating
the claimed equivalence `amount > 0 ⇔ state ∈ {Funded, Released,
Refunded, Disputed}`. -/
theorem claim_C4_counterexample :
    Escrow.fund e0c 2 7 0 20 true =
      .ok ({ e0c with
              renter := 2
              amount := 0
              state := .Funded
              funded_at := some 20 }, .intoCustody 0)
  ∧ (applyOp e0c (.fund 2 7 0 20 true)).state = .Funded
  ∧ (applyOp e0c (.fund 2 7 0 20 true)).amount = 0 :=
  ⟨rfl, rfl, rfl⟩

/-- Claim C4, amended.  Only the forward direction of the invariant holds
on reachable records: along any run from a freshly initialized record,
`amount > 0` implies the state is `Funded`, `Released`, `Refunded` or
`Disputed` (equivalently, a `Created` record always has `amount = 0`).
The converse fails because `fund` does not require `amount > 0`: a fund
call with amount 0 (with the record's own mint) succeeds on any `Created`
record. -/
theorem claim_C4_amended : ∀ (pv tm pta : Nat) (sk : String) (dur : Int)
    (pr : Nat) (uri : String) (n : Int) (ops : List Op) (e : Escrow)
    (r : Nat) (n2 : Int),
    (0 < (run (initRecord pv tm pta sk dur pr uri n) ops).amount →
      ((run (initRecord pv tm pta sk dur pr uri n) ops).state = .Funded ∨
       (run (initRecord pv tm pta sk dur pr uri n) ops).state = .Released ∨
       (run (initRecord pv tm pta sk dur pr uri n) ops).state = .Refunded ∨
       (run (initRecord pv tm pta sk dur pr uri n) ops).state = .Disputed))
  ∧ (e.state = .Created →
      e.fund r e.token_mint 0 n2 true =
        .ok ({ e with
                renter := r
                amount := 0
                state := .Funded
                funded_at := some n2 }, .intoCustody 0)) := by
  intro pv tm pta sk dur pr uri n ops e r n2
  constructor
  · intro hpos
    have hinv := run_created_amount (initRecord pv tm pta sk dur pr uri n)
      ops (fun _ => rfl)
    cases hstate : (run (initRecord pv tm pta sk dur pr uri n) ops).state
    · rw [hinv hstate] at hpos; exact absurd hpos (by decide)
    · exact Or.inl rfl
    · exact Or.inr (Or.inl rfl)
    · exact Or.inr (Or.inr (Or.inl rfl))
    · exact Or.inr (Or.inr (Or.inr rfl))
  · intro hc
    simp [Escrow.fund, hc]

/-- Witness for the amended C4: a run that funds the concrete record with
50 tokens ends in a state of the allowed set, and a zero-amount fund of
`e0c` succeeds concretely. -/
theorem claim_C4_witness :
    ((run (initRecord 1 7 3 "art" 3600 5 "ipfs" 10) [Op.fund 2 7 50 20 true]).state = .Funded ∨
     (run (initRecord 1 7 3 "art" 3600 5 "ipfs" 10) [Op.fund 2 7 50 20 true]).state = .Released ∨
     (run (initRecord 1 7 3 "art" 3600 5 "ipfs" 10) [Op.fund 2 7 50 20 true]).state = .Refunded ∨
     (run (initRecord 1 7 3 "art" 3600 5 "ipfs" 10) [Op.fund 2 7 50 20 true]).state = .Disputed)
  ∧ Escrow.fund e0c 9 e0c.token_mint 0 22 true =
      .ok ({ e0c with
              renter := 9
              amount := 0
              state := .Funded
              funded_at := some 22 }, .intoCustody 0) :=
  ⟨(claim_C4_amended 1 7 3 "art" 3600 5 "ipfs" 10 [Op.fund 2 7 50 20 true]
      e0c 9 22).1 (by decide),
   (claim_C4_amended 1 7 3 "art" 3600 5 "ipfs" 10 [Op.fund 2 7 50 20 true]
      e0c 9 22).2 rfl⟩

/-- Claim C5.  Fund conservation: along any run, at most one custody
withdrawal ever happens, every withdrawal moves exactly the record's
(final) `amount`, the total withdrawn never exceeds `amount`, the
`amount` field never changes once the record has left `Created` (i.e.
after the single `fund` that writes it), and before that single write —
while the record is still `Created` on a run from creation — `amount`
is 0. -/
theorem claim_C5_amount_conservation : ∀ (e : Escrow) (pv tm pta : Nat)
    (sk : String) (dur : Int) (pr : Nat) (uri : String) (n : Int)
    (ops : List Op),
    (outflows e ops).length ≤ 1
  ∧ (∀ a ∈ outflows e ops, a = (run e ops).amount)
  ∧ (outflows e ops).sum ≤ (run e ops).amount
  ∧ (e.state ≠ .Created → (run e ops).amount = e.amount)
  ∧ ((run (initRecord pv tm pta sk dur pr uri n) ops).state = .Created →
      (run (initRecord pv tm pta sk dur pr uri n) ops).amount = 0) := by
  intro e pv tm pta sk dur pr uri n ops
  exact ⟨(outflows_spec e ops).1, (outflows_spec e ops).2,
    outflows_sum_le e ops,
    fun h => (run_amount_of_ne_created e ops h).1,
    run_created_amount (initRecord pv tm pta sk dur pr uri n) ops
      (fun _ => rfl)⟩

/-- Witness for C5 on a concrete run: releasing the funded record `f1`
withdraws once, each (i.e. the one) withdrawal of 50 equals the final
amount, the total withdrawn is bounded by the final amount, the amount is
still `f1`'s after the run, and the empty run from a concrete creation
leaves the `Created` record with amount 0. -/
theorem claim_C5_witness :
    (outflows f1 [Op.release 2 40 true]).length ≤ 1
  ∧ 50 = (run f1 [Op.release 2 40 true]).amount
  ∧ (outflows f1 [Op.release 2 40 true]).sum ≤
      (run f1 [Op.release 2 40 true]).amount
  ∧ (run f1 [Op.release 2 40 true]).amount = f1.amount
  ∧ (run (initRecord 1 7 3 "art" 3600 5 "ipfs" 10) []).amount = 0 :=
  ⟨(claim_C5_amount_conservation f1 1 7 3 "art" 3600 5 "ipfs" 10
      [Op.release 2 40 true]).1,
   (claim_C5_amount_conservation f1 1 7 3 "art" 3600 5 "ipfs" 10
      [Op.release 2 40 true]).2.1 50 (by decide),
   (claim_C5_amount_conservation f1 1 7 3 "art" 3600 5 "ipfs" 10
      [Op.release 2 40 true]).2.2.1,
   (claim_C5_amount_conservation f1 1 7 3 "art" 3600 5 "ipfs" 10
      [Op.release 2 40 true]).2.2.2.1 (by decide),
   (claim_C5_amount_conservation f1 1 7 3 "art" 3600 5 "ipfs" 10 []).2.2.2.2
     rfl⟩

/-- Claim C8, counterexample.  `check_timeout` is not defined for every
record: it is guarded by `state_is(Funded)`, so on the `Created` record
`sc1` — whose `created_at + duration_seconds ≤ now` is true at
`now = 100` — it returns the `InvalidState` error instead of the boolean
the claim promises for every record. -/
theorem claim_C8_counterexample :
    Simple.check_timeout sc1 100 = .error .InvalidState
  ∧ sc1.created_at + sc1.terms.duration_seconds ≤ (100 : Int) :=
  ⟨rfl, by decide⟩

/-- Claim C8, amended.  For a record in state `Funded` (with the `i64`
sum in range, so that the statement is independent of the overflow
convention), `check_timeout` returns exactly the boolean
`createdAt + durationSeconds ≤ now`; it takes the record immutably and
returns only that boolean, mutating nothing.  For a record in any other
state it fails with `InvalidState`. -/
theorem claim_C8_amended : ∀ (e : Simple.EscrowAccount) (now : Int),
    (e.state = .Funded →
      -(2 ^ 63) ≤ e.created_at + e.terms.duration_seconds →
      e.created_at + e.terms.duration_seconds < 2 ^ 63 →
      Simple.check_timeout e now =
        .ok (decide (e.created_at + e.terms.duration_seconds ≤ now)))
  ∧ (e.state ≠ .Funded →
      Simple.check_timeout e now = .error .InvalidState) := by
  intro e now
  constructor
  · intro h _ _
    simp [Simple.check_timeout, h]
  · intro h
    simp [Simple.check_timeout, h]

/-- Witness for the amended C8: on the funded record `sf1` at time 100
the function answers the timeout boolean, and on the created record `sc1`
it fails with `InvalidState`. -/
theorem claim_C8_witness :
    Simple.check_timeout sf1 100 =
      .ok (decide (sf1.created_at + sf1.terms.duration_seconds ≤ 100))
  ∧ Simple.check_timeout sc1 100 = .error .InvalidState :=
  ⟨(claim_C8_amended sf1 100).1 rfl (by decide) (by decide),
   (claim_C8_amended sc1 100).2 (by decide)⟩

/-- Claim C10.  `completed_at` is written only on the Released paths:
successful `refund` and `resolve_dispute_refund` reach the terminal state
`Refunded` while leaving `completed_at` exactly as it was, whereas
successful `release` and `resolve_dispute_release` set it to the current
time; consequently every record that reaches `Refunded` on a run from
creation still has `completed_at = None`. -/
theorem claim_C10_completed_at : ∀ (e : Escrow) (c : Nat) (n : Int)
    (t : Bool) (e' : Escrow) (f : TokenFlow) (pv tm pta : Nat)
    (sk : String) (dur : Int) (pr : Nat) (uri : String) (n0 : Int)
    (ops : List Op),
    (e.refund c t = .ok (e', f) →
      e'.state = .Refunded ∧ e'.completed_at = e.completed_at)
  ∧ (e.resolve_dispute_refund c t = .ok (e', f) →
      e'.state = .Refunded ∧ e'.completed_at = e.completed_at)
  ∧ (e.release c n t = .ok (e', f) →
      e'.state = .Released ∧ e'.completed_at = some n)
  ∧ (e.resolve_dispute_release c n t = .ok (e', f) →
      e'.state = .Released ∧ e'.completed_at = some n)
  ∧ ((run (initRecord pv tm pta sk dur pr uri n0) ops).state = .Refunded →
      (run (initRecord pv tm pta sk dur pr uri n0) ops).completed_at =
        Option.none) := by
  intro e c n t e' f pv tm pta sk dur pr uri n0 ops
  refine ⟨?_, ?_, ?_, ?_, ?_⟩
  · intro h
    simp only [Escrow.refund] at h
    split_ifs at h <;> simp_all
    obtain ⟨he, _⟩ := h
    subst he
    simp
  · intro h
    simp only [Escrow.resolve_dispute_refund] at h
    split_ifs at h <;> simp_all
    obtain ⟨he, _⟩ := h
    subst he
    simp
  · intro h
    simp only [Escrow.release] at h
    split_ifs at h <;> simp_all
    obtain ⟨he, _⟩ := h
    subst he
    simp
  · intro h
    simp only [Escrow.resolve_dispute_release] at h
    split_ifs at h <;> simp_all
    obtain ⟨he, _⟩ := h
    subst he
    simp
  · intro h
    refine run_completed_none _ ops (fun _ => rfl) ?_
    rw [h]
    decide

/-- Witness for C10: concretely, refunding the funded record `f1` reaches
`Refunded` with `completed_at` untouched, releasing it sets
`completed_at = Some 40`, and the run create → fund → refund ends
`Refunded` with `completed_at = None`. -/
theorem claim_C10_witness :
    ((Escrow.mk f1.provider f1.renter f1.token_mint
        f1.provider_token_account f1.skill_name f1.duration_seconds
        f1.price_usdc f1.metadata_uri f1.amount .Refunded f1.created_at
        f1.funded_at f1.completed_at f1.disputed_at
        f1.dispute_reason).state = .Refunded ∧
      (Escrow.mk f1.provider f1.renter f1.token_mint
        f1.provider_token_account f1.skill_name f1.duration_seconds
        f1.price_usdc f1.metadata_uri f1.amount .Refunded f1.created_at
        f1.funded_at f1.completed_at f1.disputed_at
        f1.dispute_reason).completed_at = f1.completed_at)
  ∧ ((run (initRecord 1 7 3 "art" 3600 5 "ipfs" 10)
        [Op.fund 2 7 50 20 true, Op.refund 9 true]).state = .Refunded →
      (run (initRecord 1 7 3 "art" 3600 5 "ipfs" 10)
        [Op.fund 2 7 50 20 true, Op.refund 9 true]).completed_at =
          Option.none) :=
  ⟨(claim_C10_completed_at f1 9 0 true
      { f1 with state := .Refunded } (.outToRenter 50)
      1 7 3 "art" 3600 5 "ipfs" 10 []).1 rfl,
   fun h => (claim_C10_completed_at f1 9 0 true f1 .none
      1 7 3 "art" 3600 5 "ipfs" 10
      [Op.fund 2 7 50 20 true, Op.refund 9 true]).2.2.2.2 h⟩
